import Mathlib

/-!
Verification of the `gdcm_conv` transcoding pipeline (src/src/lib.rs).

Shallow embedding notes:
* Machine integers are modelled by `Nat` (for `u32`, `usize`, `c_uint`,
  `size_t`; the pipeline performs no wrapping arithmetic on them) and `Int`
  (for the `i32` returned by `to_id`, whose values are all in 0..15).
* `Vec<u8>` is modelled by its length and capacity; `Vec::reserve(n)`
  guarantees capacity of at least `len + n` and never shrinks, so it is
  modelled by the minimal conforming allocator `reserveVec`.
* The external C entry point `c_convert` is repository code that is not under
  src/ (only its extern declaration and caller are), so `pipeline` is
  parameterised by a conversion oracle `conv : CConvArgs → output_t`; the
  arguments of every native call are recorded in the returned trace.  The
  source pointer itself is not modelled (only its length matters to the
  control flow under verification).
* The `println!` on the undersize path is a diagnostic side effect with no
  influence on the result and is not modelled.
-/

namespace GdcmConv

/-- Inner failure kind, from `enum Error` (lib.rs lines 120-138). -/
inductive Error where
  | ReadStream
  | InvalidPhotometricInterpretation
  | ExecuteChange
  | ExecuteLUTChange
  | WriteStream
  | FileExplicitFilter
  | InvalidTransferSyntax
  | DeriveFile
  deriving DecidableEq

/-- Outer error category, from `enum GDCMError` (lib.rs lines 104-118). -/
inductive GDCMError where
  | Unknown
  | PointerNULL
  | EmptyBuffer
  | Pre (e : Error)
  | Photo (e : Error)
  | Post (e : Error)
  deriving DecidableEq

/-- Target transfer syntax, from `enum TransferSyntax` (lib.rs lines 141-179).
`u32` payloads are modelled as `Nat`. -/
inductive TransferSyntax where
  | None
  | ImplicitVRLittleEndian
  | ExplicitVRLittleEndian
  | ExplicitVRBigEndian
  | RLELossless
  | JPEGBaselineProcess1 (quality : Nat)
  | JPEGExtendedProcess2_4 (quality : Nat)
  | JPEGLosslessProcess14
  | JPEGLosslessProcess14_1
  | JPEGLSLossless
  | JPEGLSNearLossless (allow_error : Nat)
  | JPEG2000Lossless
  | JPEG2000 (quality1 quality2 quality3 : Nat) (irreversible : Bool)
  | JPEG2000Part2Lossless
  | JPEG2000Part2 (quality1 quality2 quality3 : Nat) (irreversible : Bool)
  | MPEG2MainProfile

/-- `TransferSyntax::to_id` (lib.rs lines 181-202); returns `i32`. -/
def TransferSyntax.to_id : TransferSyntax → Int
  | .None => 0
  | .ImplicitVRLittleEndian => 1
  | .ExplicitVRLittleEndian => 2
  | .ExplicitVRBigEndian => 3
  | .JPEGBaselineProcess1 _ => 4
  | .JPEGExtendedProcess2_4 _ => 5
  | .JPEGLosslessProcess14 => 6
  | .JPEGLosslessProcess14_1 => 7
  | .JPEGLSLossless => 8
  | .JPEGLSNearLossless _ => 9
  | .JPEG2000Lossless => 10
  | .JPEG2000 _ _ _ _ => 11
  | .JPEG2000Part2Lossless => 12
  | .JPEG2000Part2 _ _ _ _ => 13
  | .RLELossless => 14
  | .MPEG2MainProfile => 15

/-- Target photometric interpretation, from `enum PhotometricInterpretation`
(lib.rs lines 204-220). -/
inductive PhotometricInterpretation where
  | None
  | Monochrome1
  | Monochrome2
  | PaletteColor
  | RGB
  | HSV
  | ARGB
  | CMYK
  | YbrFull
  | YbrFull422
  | YbrPartial422
  | YbrPartial420
  | YbrIct
  | YbrRct

/-- `PhotometricInterpretation::to_id` (lib.rs lines 222-241); returns `i32`. -/
def PhotometricInterpretation.to_id : PhotometricInterpretation → Int
  | .None => 0
  | .Monochrome1 => 1
  | .Monochrome2 => 2
  | .PaletteColor => 3
  | .RGB => 4
  | .HSV => 5
  | .ARGB => 6
  | .CMYK => 7
  | .YbrFull => 8
  | .YbrFull422 => 9
  | .YbrPartial422 => 10
  | .YbrPartial420 => 11
  | .YbrIct => 12
  | .YbrRct => 13

/-- Result of one native call, from `struct output_t` (lib.rs lines 243-247):
`status : c_uint`, `size : size_t`. -/
structure output_t where
  status : Nat
  size : Nat
  deriving DecidableEq

/-- The full argument tuple of one `c_convert` invocation (lib.rs lines
249-264), minus the raw source pointer. -/
structure CConvArgs where
  source_len : Nat
  max_size : Nat
  transfer_syntax_pre : Int
  transfer_syntax_post : Int
  photometric_interpretation : Int
  is_lossy : Bool
  quality1 : Nat
  quality2 : Nat
  quality3 : Nat
  irreversible : Bool
  allow_error : Nat
  deriving DecidableEq

/-- The six lossy-compression parameters derived from the post-stage transfer
syntax (the tuple bound at lib.rs lines 277-320). -/
structure LossyParams where
  is_lossy : Bool
  quality1 : Nat
  quality2 : Nat
  quality3 : Nat
  irreversible : Bool
  allow_error : Nat
  deriving DecidableEq

/-- The `match transfer_syntax_post` of lib.rs lines 277-320 setting
`(is_lossy, quality1, quality2, quality3, irreversible, allow_error)`. -/
def lossyParams : TransferSyntax → LossyParams
  | .JPEGBaselineProcess1 t =>
      if t > 0 then ⟨true, t, 0, 0, false, 0⟩ else ⟨false, 0, 0, 0, false, 0⟩
  | .JPEGExtendedProcess2_4 t =>
      if t > 0 then ⟨true, t, 0, 0, false, 0⟩ else ⟨false, 0, 0, 0, false, 0⟩
  | .JPEGLSNearLossless t =>
      if t > 0 then ⟨true, 0, 0, 0, false, t⟩ else ⟨false, 0, 0, 0, false, t⟩
  | .JPEG2000 t1 t2 t3 t4 =>
      if t1 ≠ 0 ∨ t2 ≠ 0 ∨ t3 ≠ 0 ∨ t4 then ⟨true, t1, t2, t3, t4, 0⟩
      else ⟨false, 0, 0, 0, false, 0⟩
  | .JPEG2000Part2 t1 t2 t3 t4 =>
      if t1 ≠ 0 ∨ t2 ≠ 0 ∨ t3 ≠ 0 ∨ t4 then ⟨true, t1, t2, t3, t4, 0⟩
      else ⟨false, 0, 0, 0, false, 0⟩
  | _ => ⟨false, 0, 0, 0, false, 0⟩

/-- `Vec::reserve`: after `reserve(additional)` on a vector of length `len`
and capacity `cap`, the capacity is at least `len + additional` and is never
shrunk; modelled as the minimal conforming allocator. -/
def reserveVec (len cap additional : Nat) : Nat :=
  max cap (len + additional)

/-- Initial capacity reservation (lib.rs lines 322-329): reserve the supplied
estimate, or `source.len() * 3` by default. -/
def initialCap (source_len cap0 : Nat) : Option Nat → Nat
  | some t => reserveVec source_len cap0 t
  | none => reserveVec source_len cap0 (source_len * 3)

/-- Arguments of the first native call (lib.rs lines 332-347): `max_size` is
the capacity actually available after the initial reservation. -/
def firstArgs (source_len cap0 : Nat) (estimated_length : Option Nat)
    (pre : TransferSyntax) (photo : PhotometricInterpretation)
    (post : TransferSyntax) : CConvArgs :=
  { source_len := source_len
    max_size := initialCap source_len cap0 estimated_length
    transfer_syntax_pre := pre.to_id
    transfer_syntax_post := post.to_id
    photometric_interpretation := photo.to_id
    is_lossy := (lossyParams post).is_lossy
    quality1 := (lossyParams post).quality1
    quality2 := (lossyParams post).quality2
    quality3 := (lossyParams post).quality3
    irreversible := (lossyParams post).irreversible
    allow_error := (lossyParams post).allow_error }

/-- Arguments of the retried native call (lib.rs lines 359-374): identical to
the first call except that `max_size` is `ret.size`, the needed size reported
by the first call. -/
def retryArgs (source_len cap0 : Nat) (estimated_length : Option Nat)
    (pre : TransferSyntax) (photo : PhotometricInterpretation)
    (post : TransferSyntax) (needed : Nat) : CConvArgs :=
  { firstArgs source_len cap0 estimated_length pre photo post with
      max_size := needed }

/-- Status-code translation, the `match ret.status` of lib.rs lines 378-410.
On status `0x00` the buffer is truncated to `ret.size` via `set_len` and
returned, so `.ok` carries the exposed output length; every error constructor
carries no numeric code. -/
def translateStatus (ret : output_t) : Except GDCMError Nat :=
  if ret.status = 0x00 then .ok ret.size
  else if ret.status = 0x11 then .error (.Pre .ReadStream)
  else if ret.status = 0x12 then .error (.Pre .FileExplicitFilter)
  else if ret.status = 0x13 then .error (.Pre .InvalidTransferSyntax)
  else if ret.status = 0x14 then .error (.Pre .ExecuteChange)
  else if ret.status = 0x15 then .error (.Pre .DeriveFile)
  else if ret.status = 0x16 then .error (.Pre .WriteStream)
  else if ret.status = 0x21 then .error (.Photo .ReadStream)
  else if ret.status = 0x22 then .error (.Photo .InvalidPhotometricInterpretation)
  else if ret.status = 0x23 then .error (.Photo .ExecuteChange)
  else if ret.status = 0x24 then .error (.Photo .ExecuteLUTChange)
  else if ret.status = 0x25 then .error (.Photo .WriteStream)
  else if ret.status = 0x31 then .error (.Post .ReadStream)
  else if ret.status = 0x32 then .error (.Post .FileExplicitFilter)
  else if ret.status = 0x33 then .error (.Post .InvalidTransferSyntax)
  else if ret.status = 0x34 then .error (.Post .ExecuteChange)
  else if ret.status = 0x35 then .error (.Post .DeriveFile)
  else if ret.status = 0x36 then .error (.Post .WriteStream)
  else if ret.status = 0x0F then .error .PointerNULL
  else if ret.status = 0x1F then .error .EmptyBuffer
  else .error .Unknown

/-- The status codes with an explicit arm in the `match` of lib.rs 378-410. -/
def definedCodes : List Nat :=
  [0x00, 0x11, 0x12, 0x13, 0x14, 0x15, 0x16,
   0x21, 0x22, 0x23, 0x24, 0x25,
   0x31, 0x32, 0x33, 0x34, 0x35, 0x36, 0x0F, 0x1F]

/-- Observable outcome of one `pipeline` run: the caller-facing result (`.ok`
carries the exposed output length), the buffer capacity at the end of the run,
and the trace of native-call argument tuples in invocation order. -/
structure PipelineRun where
  result : Except GDCMError Nat
  finalCap : Nat
  calls : List CConvArgs

/-- `pipeline` (lib.rs lines 266-411), parameterised by the native conversion
oracle `conv` and by the initial capacity `cap0` of the caller's vector. -/
def pipeline (conv : CConvArgs → output_t) (source_len cap0 : Nat)
    (estimated_length : Option Nat) (transfer_syntax_pre : TransferSyntax)
    (photometric_interpretation : PhotometricInterpretation)
    (transfer_syntax_post : TransferSyntax) : PipelineRun :=
  let cap1 := initialCap source_len cap0 estimated_length
  let args1 := firstArgs source_len cap0 estimated_length transfer_syntax_pre
    photometric_interpretation transfer_syntax_post
  let ret1 := conv args1
  if ret1.status = 0xFF then
    -- lib.rs 349-375: reserve `ret.size` more and re-invoke once with
    -- `max_size = ret.size`.
    let cap2 := reserveVec source_len cap1 ret1.size
    let args2 := retryArgs source_len cap0 estimated_length transfer_syntax_pre
      photometric_interpretation transfer_syntax_post ret1.size
    let ret2 := conv args2
    { result := translateStatus ret2, finalCap := cap2, calls := [args1, args2] }
  else
    { result := translateStatus ret1, finalCap := cap1, calls := [args1] }

/-- The `output_t` whose status the final `match` of lib.rs 378-410 inspects:
the first call's result, or the retried call's result after an undersize
signal. -/
def finalOutcome (conv : CConvArgs → output_t) (source_len cap0 : Nat)
    (estimated_length : Option Nat) (transfer_syntax_pre : TransferSyntax)
    (photometric_interpretation : PhotometricInterpretation)
    (transfer_syntax_post : TransferSyntax) : output_t :=
  let args1 := firstArgs source_len cap0 estimated_length transfer_syntax_pre
    photometric_interpretation transfer_syntax_post
  if (conv args1).status = 0xFF then
    conv (retryArgs source_len cap0 estimated_length transfer_syntax_pre
      photometric_interpretation transfer_syntax_post (conv args1).size)
  else
    conv args1

/-- Payload erasure: maps every variant to a fixed representative with zeroed
payloads, used to state injectivity of `to_id` "ignoring payload values". -/
def eraseParams : TransferSyntax → TransferSyntax
  | .JPEGBaselineProcess1 _ => .JPEGBaselineProcess1 0
  | .JPEGExtendedProcess2_4 _ => .JPEGExtendedProcess2_4 0
  | .JPEGLSNearLossless _ => .JPEGLSNearLossless 0
  | .JPEG2000 _ _ _ _ => .JPEG2000 0 0 0 false
  | .JPEG2000Part2 _ _ _ _ => .JPEG2000Part2 0 0 0 false
  | t => t

theorem lossyParams_j2k (q1 q2 q3 : Nat) (irr : Bool) :
    lossyParams (.JPEG2000 q1 q2 q3 irr) =
      ⟨decide (q1 ≠ 0) || decide (q2 ≠ 0) || decide (q3 ≠ 0) || irr,
        q1, q2, q3, irr, 0⟩ := by
  simp only [lossyParams]
  split
  · rename_i h
    rcases h with h | h | h | h <;> simp [h]
  · rename_i h
    push_neg at h
    obtain ⟨h1, h2, h3, h4⟩ := h
    subst h1; subst h2; subst h3
    simp [Bool.not_eq_true] at h4
    subst h4
    rfl

theorem lossyParams_j2kPart2 (q1 q2 q3 : Nat) (irr : Bool) :
    lossyParams (.JPEG2000Part2 q1 q2 q3 irr) =
      ⟨decide (q1 ≠ 0) || decide (q2 ≠ 0) || decide (q3 ≠ 0) || irr,
        q1, q2, q3, irr, 0⟩ := by
  simp only [lossyParams]
  split
  · rename_i h
    rcases h with h | h | h | h <;> simp [h]
  · rename_i h
    push_neg at h
    obtain ⟨h1, h2, h3, h4⟩ := h
    subst h1; subst h2; subst h3
    simp [Bool.not_eq_true] at h4
    subst h4
    rfl

theorem lossyParams_baseline (q : Nat) :
    lossyParams (.JPEGBaselineProcess1 q) = ⟨decide (0 < q), q, 0, 0, false, 0⟩ := by
  simp only [lossyParams]
  split
  · rename_i h
    simp [h]
  · rename_i h
    have hq : q = 0 := by omega
    subst hq
    rfl

theorem lossyParams_extended (q : Nat) :
    lossyParams (.JPEGExtendedProcess2_4 q) = ⟨decide (0 < q), q, 0, 0, false, 0⟩ := by
  simp only [lossyParams]
  split
  · rename_i h
    simp [h]
  · rename_i h
    have hq : q = 0 := by omega
    subst hq
    rfl

/-- C6: for `JPEG2000(q1,q2,q3,irr)` and `JPEG2000Part2(q1,q2,q3,irr)` the
parameter mapper yields `is_lossy` true iff any of q1, q2, q3 is nonzero or
irr is true, propagates q1, q2, q3 and irr verbatim, yields `allow_error = 0`,
and in particular `JPEG2000(0,0,0,false)` yields `is_lossy = false`. -/
theorem c6_jpeg2000_lossy_params (q1 q2 q3 : Nat) (irr : Bool) :
    ((lossyParams (.JPEG2000 q1 q2 q3 irr)).is_lossy = true ↔
        (q1 ≠ 0 ∨ q2 ≠ 0 ∨ q3 ≠ 0 ∨ irr = true)) ∧
    (lossyParams (.JPEG2000 q1 q2 q3 irr)).quality1 = q1 ∧
    (lossyParams (.JPEG2000 q1 q2 q3 irr)).quality2 = q2 ∧
    (lossyParams (.JPEG2000 q1 q2 q3 irr)).quality3 = q3 ∧
    (lossyParams (.JPEG2000 q1 q2 q3 irr)).irreversible = irr ∧
    (lossyParams (.JPEG2000 q1 q2 q3 irr)).allow_error = 0 ∧
    ((lossyParams (.JPEG2000Part2 q1 q2 q3 irr)).is_lossy = true ↔
        (q1 ≠ 0 ∨ q2 ≠ 0 ∨ q3 ≠ 0 ∨ irr = true)) ∧
    (lossyParams (.JPEG2000Part2 q1 q2 q3 irr)).quality1 = q1 ∧
    (lossyParams (.JPEG2000Part2 q1 q2 q3 irr)).quality2 = q2 ∧
    (lossyParams (.JPEG2000Part2 q1 q2 q3 irr)).quality3 = q3 ∧
    (lossyParams (.JPEG2000Part2 q1 q2 q3 irr)).irreversible = irr ∧
    (lossyParams (.JPEG2000Part2 q1 q2 q3 irr)).allow_error = 0 ∧
    (lossyParams (.JPEG2000 0 0 0 false)).is_lossy = false := by
  simp [lossyParams_j2k, lossyParams_j2kPart2, Bool.or_eq_true, or_assoc]

/-- C7: for `JPEGBaselineProcess1(q)` and `JPEGExtendedProcess2_4(q)` the
parameter mapper yields `is_lossy` true iff `q > 0`, `quality1 = q`, the other
quality fields 0, `irreversible = false` and `allow_error = 0`; in particular
`JPEGBaselineProcess1(85)` yields `(true, 85, 0, 0, false, 0)`. -/
theorem c7_jpeg_quality_params (q : Nat) :
    ((lossyParams (.JPEGBaselineProcess1 q)).is_lossy = true ↔ 0 < q) ∧
    (lossyParams (.JPEGBaselineProcess1 q)).quality1 = q ∧
    (lossyParams (.JPEGBaselineProcess1 q)).quality2 = 0 ∧
    (lossyParams (.JPEGBaselineProcess1 q)).quality3 = 0 ∧
    (lossyParams (.JPEGBaselineProcess1 q)).irreversible = false ∧
    (lossyParams (.JPEGBaselineProcess1 q)).allow_error = 0 ∧
    ((lossyParams (.JPEGExtendedProcess2_4 q)).is_lossy = true ↔ 0 < q) ∧
    (lossyParams (.JPEGExtendedProcess2_4 q)).quality1 = q ∧
    (lossyParams (.JPEGExtendedProcess2_4 q)).quality2 = 0 ∧
    (lossyParams (.JPEGExtendedProcess2_4 q)).quality3 = 0 ∧
    (lossyParams (.JPEGExtendedProcess2_4 q)).irreversible = false ∧
    (lossyParams (.JPEGExtendedProcess2_4 q)).allow_error = 0 ∧
    lossyParams (.JPEGBaselineProcess1 85) = ⟨true, 85, 0, 0, false, 0⟩ := by
  simp [lossyParams_baseline, lossyParams_extended]

/-- C8: `TransferSyntax.to_id` is total over all 16 variants, lands in 0..15
with `None` mapped to 0, and is injective ignoring payload values: equal ids
force equal payload-erased variants. -/
theorem c8_to_id_total_injective :
    (∀ a : TransferSyntax, 0 ≤ a.to_id ∧ a.to_id ≤ 15) ∧
    TransferSyntax.to_id .None = 0 ∧
    (∀ a b : TransferSyntax, a.to_id = b.to_id → eraseParams a = eraseParams b) := by
  refine ⟨fun a => by cases a <;> exact ⟨by norm_num [TransferSyntax.to_id], by norm_num [TransferSyntax.to_id]⟩, rfl, fun a b => ?_⟩
  cases a <;> cases b <;> simp [TransferSyntax.to_id, eraseParams]

/-- Witness for C8's injectivity component at two concrete variants with
distinct payloads but the same id. -/
theorem c8_to_id_total_injective_witness :
    eraseParams (.JPEG2000 1 2 3 true) = eraseParams (.JPEG2000 4 5 6 false) :=
  c8_to_id_total_injective.2.2 (.JPEG2000 1 2 3 true) (.JPEG2000 4 5 6 false) rfl

/-- C2: the status translation of lib.rs 378-410 is a pure total function of
the status code: 0x00 yields success carrying the reported size, each defined
code yields exactly its documented stage-tagged error, and every status code
outside the defined set yields the Unknown error; no error constructor carries
a raw numeric code. -/
theorem c2_status_translation (sz : Nat) :
    (∀ s : Nat, s ∉ definedCodes → translateStatus ⟨s, sz⟩ = .error .Unknown) ∧
    translateStatus ⟨0x00, sz⟩ = .ok sz ∧
    translateStatus ⟨0x0F, sz⟩ = .error .PointerNULL ∧
    translateStatus ⟨0x1F, sz⟩ = .error .EmptyBuffer ∧
    translateStatus ⟨0x11, sz⟩ = .error (.Pre .ReadStream) ∧
    translateStatus ⟨0x12, sz⟩ = .error (.Pre .FileExplicitFilter) ∧
    translateStatus ⟨0x13, sz⟩ = .error (.Pre .InvalidTransferSyntax) ∧
    translateStatus ⟨0x14, sz⟩ = .error (.Pre .ExecuteChange) ∧
    translateStatus ⟨0x15, sz⟩ = .error (.Pre .DeriveFile) ∧
    translateStatus ⟨0x16, sz⟩ = .error (.Pre .WriteStream) ∧
    translateStatus ⟨0x21, sz⟩ = .error (.Photo .ReadStream) ∧
    translateStatus ⟨0x22, sz⟩ = .error (.Photo .InvalidPhotometricInterpretation) ∧
    translateStatus ⟨0x23, sz⟩ = .error (.Photo .ExecuteChange) ∧
    translateStatus ⟨0x24, sz⟩ = .error (.Photo .ExecuteLUTChange) ∧
    translateStatus ⟨0x25, sz⟩ = .error (.Photo .WriteStream) ∧
    translateStatus ⟨0x31, sz⟩ = .error (.Post .ReadStream) ∧
    translateStatus ⟨0x32, sz⟩ = .error (.Post .FileExplicitFilter) ∧
    translateStatus ⟨0x33, sz⟩ = .error (.Post .InvalidTransferSyntax) ∧
    translateStatus ⟨0x34, sz⟩ = .error (.Post .ExecuteChange) ∧
    translateStatus ⟨0x35, sz⟩ = .error (.Post .DeriveFile) ∧
    translateStatus ⟨0x36, sz⟩ = .error (.Post .WriteStream) := by
  refine ⟨fun s hs => ?_, rfl, rfl, rfl, rfl, rfl, rfl, rfl, rfl, rfl, rfl, rfl,
    rfl, rfl, rfl, rfl, rfl, rfl, rfl, rfl, rfl⟩
  simp only [definedCodes, List.mem_cons, List.not_mem_nil, or_false, not_or] at hs
  obtain ⟨h00, h11, h12, h13, h14, h15, h16, h21, h22, h23, h24, h25,
    h31, h32, h33, h34, h35, h36, h0F, h1F⟩ := hs
  simp [translateStatus, h00, h11, h12, h13, h14, h15, h16, h21, h22, h23,
    h24, h25, h31, h32, h33, h34, h35, h36, h0F, h1F]

/-- Witness for C2's unmapped-code component at the concrete code 0x40. -/
theorem c2_status_translation_witness :
    translateStatus ⟨0x40, 7⟩ = .error .Unknown :=
  (c2_status_translation 7).1 0x40 (by decide)

theorem pipeline_eq (conv : CConvArgs → output_t) (source_len cap0 : Nat)
    (est : Option Nat) (pre : TransferSyntax)
    (photo : PhotometricInterpretation) (post : TransferSyntax) :
    pipeline conv source_len cap0 est pre photo post =
      if (conv (firstArgs source_len cap0 est pre photo post)).status = 0xFF then
        { result := translateStatus (conv (retryArgs source_len cap0 est pre
            photo post (conv (firstArgs source_len cap0 est pre photo post)).size))
          finalCap := reserveVec source_len (initialCap source_len cap0 est)
            (conv (firstArgs source_len cap0 est pre photo post)).size
          calls := [firstArgs source_len cap0 est pre photo post,
            retryArgs source_len cap0 est pre photo post
              (conv (firstArgs source_len cap0 est pre photo post)).size] }
      else
        { result := translateStatus (conv (firstArgs source_len cap0 est pre photo post))
          finalCap := initialCap source_len cap0 est
          calls := [firstArgs source_len cap0 est pre photo post] } := rfl

/-- C1: if the first native call returns the undersize status 0xFF, the buffer
grows by a reservation of exactly the size the call reported as needed and the
native call is re-invoked exactly once (two calls in total); for any other
first status no retry occurs (one call); the native call executes at most
twice per pipeline run. -/
theorem c1_retry_policy (conv : CConvArgs → output_t) (source_len cap0 : Nat)
    (est : Option Nat) (pre : TransferSyntax)
    (photo : PhotometricInterpretation) (post : TransferSyntax) :
    ((conv (firstArgs source_len cap0 est pre photo post)).status = 0xFF →
      (pipeline conv source_len cap0 est pre photo post).calls.length = 2 ∧
      (pipeline conv source_len cap0 est pre photo post).finalCap =
        reserveVec source_len (initialCap source_len cap0 est)
          (conv (firstArgs source_len cap0 est pre photo post)).size) ∧
    ((conv (firstArgs source_len cap0 est pre photo post)).status ≠ 0xFF →
      (pipeline conv source_len cap0 est pre photo post).calls.length = 1) ∧
    (pipeline conv source_len cap0 est pre photo post).calls.length ≤ 2 := by
  rw [pipeline_eq]
  by_cases h : (conv (firstArgs source_len cap0 est pre photo post)).status = 0xFF <;>
    simp [h]

/-- Witness for C1 with a native oracle that always reports undersize. -/
theorem c1_retry_policy_witness :
    (pipeline (fun _ => ⟨0xFF, 5000⟩) 400 400 none .None .None .None).calls.length = 2 :=
  ((c1_retry_policy (fun _ => ⟨0xFF, 5000⟩) 400 400 none .None .None .None).1 rfl).1

/-- C3 counterexample: with an empty input buffer and a native oracle that
reports the empty-buffer status for zero-length sources, the pipeline DOES
invoke the native call (exactly once), refuting the claimed "no native
conversion call is made", even though the result is the EmptyBuffer error. -/
theorem c3_counterexample :
    (pipeline (fun a => if a.source_len = 0 then ⟨0x1F, 0⟩ else ⟨0x00, a.source_len⟩)
        0 0 none .None .None .None).result = .error .EmptyBuffer ∧
    (pipeline (fun a => if a.source_len = 0 then ⟨0x1F, 0⟩ else ⟨0x00, a.source_len⟩)
        0 0 none .None .None .None).calls.length = 1 := ⟨rfl, rfl⟩

/-- C3 (amended): for every call of pipeline with an empty input buffer,
provided the native call reports the empty-buffer status 0x1F for zero-length
sources (modelled from the spec: the C implementation is not under src/), the
result is the EmptyBuffer error; exactly one native call is made — with
source length 0 — rather than none. -/
theorem c3_empty_buffer (conv : CConvArgs → output_t) (cap0 : Nat)
    (est : Option Nat) (pre : TransferSyntax)
    (photo : PhotometricInterpretation) (post : TransferSyntax)
    (hconv : ∀ a : CConvArgs, a.source_len = 0 → (conv a).status = 0x1F) :
    (pipeline conv 0 cap0 est pre photo post).result = .error .EmptyBuffer ∧
    (pipeline conv 0 cap0 est pre photo post).calls =
      [firstArgs 0 cap0 est pre photo post] := by
  have h1 : (conv (firstArgs 0 cap0 est pre photo post)).status = 0x1F :=
    hconv _ rfl
  rw [pipeline_eq]
  simp [h1, translateStatus]

/-- Witness for C3's amended statement with a concrete conforming oracle. -/
theorem c3_empty_buffer_witness :
    (pipeline (fun _ => ⟨0x1F, 0⟩) 0 7 none .None .None .None).result =
      .error .EmptyBuffer :=
  (c3_empty_buffer (fun _ => ⟨0x1F, 0⟩) 7 none .None .None .None
    (fun _ _ => rfl)).1

/-- C4: whenever the final native-call outcome has status 0, the pipeline
returns Ok with the buffer truncated to exactly the produced size that
outcome reported; the exposed output length equals that size. -/
theorem c4_success_truncation (conv : CConvArgs → output_t)
    (source_len cap0 : Nat) (est : Option Nat) (pre : TransferSyntax)
    (photo : PhotometricInterpretation) (post : TransferSyntax)
    (h : (finalOutcome conv source_len cap0 est pre photo post).status = 0) :
    (pipeline conv source_len cap0 est pre photo post).result =
      .ok (finalOutcome conv source_len cap0 est pre photo post).size := by
  rw [pipeline_eq]
  unfold finalOutcome at h ⊢
  by_cases h1 : (conv (firstArgs source_len cap0 est pre photo post)).status = 0xFF <;>
    simp only [h1, if_true, if_false, reduceIte] at h ⊢ <;>
    simp [translateStatus, h]

/-- Witness for C4 with a native oracle that reports success and size 10. -/
theorem c4_success_truncation_witness :
    (pipeline (fun _ => ⟨0x00, 10⟩) 4 4 none .None .None .None).result = .ok 10 :=
  c4_success_truncation (fun _ => ⟨0x00, 10⟩) 4 4 none .None .None .None rfl

/-- C5: before the first native call the reservation requests exactly the
caller's estimate `e` (or `3 × input length` by default) of extra capacity on
top of the input length — the resulting capacity is `max cap0 (len + extra)`,
hence exactly `len + extra` whenever the incoming capacity does not already
exceed it and at least 400 for a 100-byte input with no estimate — and the
`max_size` argument of the first native call equals the buffer's actual
capacity after this reservation. -/
theorem c5_initial_sizing (conv : CConvArgs → output_t)
    (source_len cap0 e : Nat) (pre : TransferSyntax)
    (photo : PhotometricInterpretation) (post : TransferSyntax) :
    source_len + e ≤ initialCap source_len cap0 (some e) ∧
    (cap0 ≤ source_len + e →
      initialCap source_len cap0 (some e) = source_len + e) ∧
    source_len + source_len * 3 ≤ initialCap source_len cap0 none ∧
    (cap0 ≤ source_len + source_len * 3 →
      initialCap source_len cap0 none = source_len + source_len * 3) ∧
    (source_len = 100 → 400 ≤ initialCap source_len cap0 none) ∧
    (∀ est : Option Nat,
      (pipeline conv source_len cap0 est pre photo post).calls.head? =
        some (firstArgs source_len cap0 est pre photo post)) ∧
    (∀ est : Option Nat,
      (firstArgs source_len cap0 est pre photo post).max_size =
        initialCap source_len cap0 est) := by
  refine ⟨?_, ?_, ?_, ?_, ?_, fun est => ?_, fun est => rfl⟩
  · simp only [initialCap, reserveVec]; omega
  · intro hc; simp only [initialCap, reserveVec]; omega
  · simp only [initialCap, reserveVec]; omega
  · intro hc; simp only [initialCap, reserveVec]; omega
  · intro hl; subst hl; simp only [initialCap, reserveVec]; omega
  · rw [pipeline_eq]
    by_cases h : (conv (firstArgs source_len cap0 est pre photo post)).status = 0xFF <;>
      simp [h]

/-- Witness for C5's exact-reservation components at a 100-byte input. -/
theorem c5_initial_sizing_witness :
    initialCap 100 100 (some 50) = 150 ∧ initialCap 100 100 none = 400 := by
  have h1 := (c5_initial_sizing (fun _ => ⟨0, 0⟩) 100 100 50 .None .None .None).2.1
    (by omega)
  have h2 := (c5_initial_sizing (fun _ => ⟨0, 0⟩) 100 100 50 .None .None .None).2.2.2.1
    (by omega)
  exact ⟨by simpa using h1, by simpa using h2⟩

/-- C9: on the undersize retry, the `max_size` argument of the second native
call equals exactly the needed size reported by the first call's outcome, not
the buffer's capacity after growth, which is at least the input length plus
that reported size. -/
theorem c9_retry_max_size (conv : CConvArgs → output_t) (source_len cap0 : Nat)
    (est : Option Nat) (pre : TransferSyntax)
    (photo : PhotometricInterpretation) (post : TransferSyntax)
    (h : (conv (firstArgs source_len cap0 est pre photo post)).status = 0xFF) :
    (pipeline conv source_len cap0 est pre photo post).calls =
      [firstArgs source_len cap0 est pre photo post,
       retryArgs source_len cap0 est pre photo post
         (conv (firstArgs source_len cap0 est pre photo post)).size] ∧
    (retryArgs source_len cap0 est pre photo post
        (conv (firstArgs source_len cap0 est pre photo post)).size).max_size =
      (conv (firstArgs source_len cap0 est pre photo post)).size ∧
    source_len + (conv (firstArgs source_len cap0 est pre photo post)).size ≤
      (pipeline conv source_len cap0 est pre photo post).finalCap := by
  rw [pipeline_eq]
  refine ⟨by simp [h], rfl, ?_⟩
  simp only [h, if_true, reduceIte, reserveVec]
  omega

/-- Witness for C9 with a native oracle that reports undersize needing 5000. -/
theorem c9_retry_max_size_witness :
    400 + 5000 ≤
      (pipeline (fun _ => ⟨0xFF, 5000⟩) 400 400 none .None .None .None).finalCap :=
  (c9_retry_max_size (fun _ => ⟨0xFF, 5000⟩) 400 400 none .None .None .None rfl).2.2

/-- C10: if the second native call (the single permitted retry) also returns
the undersize status 0xFF, no further native call is made (exactly two in
total) and the pipeline returns the Unknown error — 0xFF has no arm in the
status table — so no buffer is returned to the caller. -/
theorem c10_double_undersize (conv : CConvArgs → output_t)
    (source_len cap0 : Nat) (est : Option Nat) (pre : TransferSyntax)
    (photo : PhotometricInterpretation) (post : TransferSyntax)
    (h1 : (conv (firstArgs source_len cap0 est pre photo post)).status = 0xFF)
    (h2 : (conv (retryArgs source_len cap0 est pre photo post
        (conv (firstArgs source_len cap0 est pre photo post)).size)).status = 0xFF) :
    (pipeline conv source_len cap0 est pre photo post).result = .error .Unknown ∧
    (pipeline conv source_len cap0 est pre photo post).calls.length = 2 := by
  rw [pipeline_eq]
  simp [h1, translateStatus, h2]

/-- Witness for C10 with a native oracle that always reports undersize. -/
theorem c10_double_undersize_witness :
    (pipeline (fun _ => ⟨0xFF, 9⟩) 3 3 none .None .None .None).result =
      .error .Unknown :=
  (c10_double_undersize (fun _ => ⟨0xFF, 9⟩) 3 3 none .None .None .None rfl rfl).1

end GdcmConv
